import Mathlib

/-!
# FEAT1310 feature-switch decoder (`src/memory.h`, `src/memory.c`)

A shallow embedding of the decoder.  Conventions of the embedding:

* memory is a flat byte-addressed map `Memory := Nat → Nat` (a cell is read
  modulo 256); a C pointer is the address it holds, and pointer arithmetic on
  a `T *` advances by `sizeof(T)`;
* machine integers are `Nat`/`Int`, truncated explicitly where the C type is
  narrower than the value stored into it;
* a failed `assert` aborts the call: functions containing (or calling a
  function containing) an `assert` return `Option`, `none` being the abort;
* an out-parameter that is only meaningful when the function returns
  `FEATURES_OK` is returned through `Except features_err_t`;
* `config.h` is not part of the sources, so its macro `WORDS_BIGENDIAN` is the
  Boolean parameter `be` (true on a big-endian host).

The source does not compile as it stands; identifiers that name no
declaration are read as the declaration they can only mean
(`page_block_number` is the parameter `block_number`,
`switch_info.switch_number` is `switch_id.switch_number`, `block->properties`
is the field `switch_properties`, `feature_switch_type_t` is
`features_switch_type_t`, the macro member `value.value.` is the union
`value.data.`, `.` and `->` are exchanged where the operand requires it, an
object is passed by address where the callee takes a pointer, and the closing
parenthesis missing in `features_write_uint16` is supplied).  Nothing
else is repaired: every offset, comparison, shift and assignment is the one
the source writes.
-/

namespace Features

/-! ## `memory.h`: constants -/

/-! The enumerators are the integers their initialisers compute.
`FEATURES_MAX_PAGE` is `UINT32_MAX`, an `unsigned int`, so the products
`FEATURES_MAX_BLOCK` and `FEATURES_MAX_SWITCH` are products of `unsigned int`
and wrap modulo 2^32. -/

def UINT32_MAX : Nat := 2 ^ 32 - 1

def FEATURES_PAGE_SIZE : Nat := 4096
def FEATURES_BLOCK_SIZE : Nat := 64
def FEATURES_BLOCKS_PER_PAGE : Nat := 64
def FEATURES_MAX_SWITCHES_PER_BLOCK : Nat := 256
def FEATURES_MAX_PAGE : Nat := UINT32_MAX
def FEATURES_MAX_BLOCK : Nat := (FEATURES_MAX_PAGE * FEATURES_BLOCKS_PER_PAGE) % 2 ^ 32
def FEATURES_MAX_SWITCH : Nat := (FEATURES_MAX_BLOCK * FEATURES_MAX_SWITCHES_PER_BLOCK) % 2 ^ 32
def FEATURES_FLAGS_PER_BLOCK : Nat := 168
def FEATURES_UINT8_PER_BLOCK : Nat := 51
def FEATURES_UINT16_PER_BLOCK : Nat := 28
def FEATURES_UINT32_PER_BLOCK : Nat := 15
def FEATURES_UINT64_PER_BLOCK : Nat := 7

def FEATURES_INT8_PER_BLOCK : Nat := FEATURES_UINT8_PER_BLOCK
def FEATURES_INT16_PER_BLOCK : Nat := FEATURES_UINT16_PER_BLOCK
def FEATURES_INT32_PER_BLOCK : Nat := FEATURES_UINT32_PER_BLOCK
def FEATURES_INT64_PER_BLOCK : Nat := FEATURES_UINT64_PER_BLOCK

def FEATURES_FLAG_PROPERTIES_SIZE : Nat := (FEATURES_FLAGS_PER_BLOCK * 2 - 1) / 8 + 1
def FEATURES_UINT8_PROPERTIES_SIZE : Nat := (FEATURES_UINT8_PER_BLOCK * 2 - 1) / 8 + 1
def FEATURES_UINT16_PROPERTIES_SIZE : Nat := (FEATURES_UINT16_PER_BLOCK * 2 - 1) / 8 + 1
def FEATURES_UINT32_PROPERTIES_SIZE : Nat := (FEATURES_UINT32_PER_BLOCK * 2 - 1) / 8 + 1
def FEATURES_UINT64_PROPERTIES_SIZE : Nat := (FEATURES_UINT64_PER_BLOCK * 2 - 1) / 8 + 1

def FEATURES_INT8_PROPERTIES_SIZE : Nat := FEATURES_UINT8_PROPERTIES_SIZE
def FEATURES_INT16_PROPERTIES_SIZE : Nat := FEATURES_UINT16_PROPERTIES_SIZE
def FEATURES_INT32_PROPERTIES_SIZE : Nat := FEATURES_UINT32_PROPERTIES_SIZE
def FEATURES_INT64_PROPERTIES_SIZE : Nat := FEATURES_UINT64_PROPERTIES_SIZE

/-- The string literal `FEATURES_MAGIC_13_10`, "FEAT1310", as its ASCII bytes. -/
def FEATURES_MAGIC_13_10 : List Nat := [70, 69, 65, 84, 49, 51, 49, 48]

/-! ## `memory.h`: types -/

/-- The enum `features_err_t`. -/
inductive features_err_t where
  | FEATURES_OK
  | FEATURES_ERR_UNINITIALISED
  | FEATURES_ERR_INVALID
  | FEATURES_ERR_UNUSED
  | FEATURES_ERR_DEPRECATED
  | FEATURES_ERR_INCORRECT_TYPE
deriving DecidableEq, Repr

open features_err_t

/-- The enum `features_switch_type_t`, as the integer it is in C: the type of a
block is produced by a cast of a nibble and may hold a value that names no
enumerator. -/
abbrev features_switch_type_t := Nat

def FEATURES_SWITCH_TYPE_UNUSED : features_switch_type_t := 0x0
def FEATURES_SWITCH_TYPE_DEPRECATED : features_switch_type_t := 0x1
def FEATURES_SWITCH_TYPE_FLAG : features_switch_type_t := 0x2
def FEATURES_SWITCH_TYPE_UINT8 : features_switch_type_t := 0x3
def FEATURES_SWITCH_TYPE_UINT16 : features_switch_type_t := 0x4
def FEATURES_SWITCH_TYPE_UINT32 : features_switch_type_t := 0x5
def FEATURES_SWITCH_TYPE_UINT64 : features_switch_type_t := 0x6
def FEATURES_SWITCH_TYPE_INT8 : features_switch_type_t := 0x7
def FEATURES_SWITCH_TYPE_INT16 : features_switch_type_t := 0x8
def FEATURES_SWITCH_TYPE_INT32 : features_switch_type_t := 0x9
def FEATURES_SWITCH_TYPE_INT64 : features_switch_type_t := 0xa
def FEATURES_SWITCH_TYPE_INVALID : features_switch_type_t := 0xf

/-- The struct `features_switch_id_t`: `uint32_t page_number`,
`uint8_t block_number`, `uint8_t switch_number`. -/
structure features_switch_id_t where
  page_number : Nat
  block_number : Nat
  switch_number : Nat
deriving DecidableEq, Repr

/-! ## `memory.c`: `features_switch_id` -/

/-- The function `features_switch_id` (memory.c 63-77).  The assertion aborts
for a switch number above `FEATURES_MAX_SWITCH`; each field assignment
truncates to the width of the field. -/
def features_switch_id (switch_number : Nat) : Option features_switch_id_t :=
  if switch_number ≤ FEATURES_MAX_SWITCH then
    let slot := (switch_number % FEATURES_MAX_SWITCHES_PER_BLOCK) % 2 ^ 8
    let switch_number := switch_number / FEATURES_MAX_SWITCHES_PER_BLOCK
    let block := (switch_number % FEATURES_BLOCKS_PER_PAGE) % 2 ^ 8
    let switch_number := switch_number / FEATURES_BLOCKS_PER_PAGE
    some { page_number := switch_number % 2 ^ 32, block_number := block, switch_number := slot }
  else
    none

/-- The struct `features_block_t`; the union of data pointers is the one
address all of its members hold. -/
structure features_block_t where
  type : features_switch_type_t
  switch_properties : Nat
  data : Nat
deriving DecidableEq, Repr

/-- The struct `features_page_t`; `blocks` is an address. -/
structure features_page_t where
  page_number : Nat
  blocks : Nat
deriving DecidableEq, Repr

/-- The struct `features_data_t`; `pages` is an address. -/
structure features_data_t where
  page_count : Nat
  page_offset : Nat
  pages : Nat
deriving DecidableEq, Repr

/-- The struct `features_switch_info_t` of memory.c; `data` is an address. -/
structure features_switch_info_t where
  type : features_switch_type_t
  data : Nat
deriving DecidableEq, Repr

/-- Modelled from the spec: the struct `features_switch_value_t` is declared in
no source file.  It is the resolver result (a type tag and a value matching
it), with the members `features_switch_value` names: `type`, the union `data`
(held as the numeric value of the member last stored) and the pointer
`switch_properties`, which no function of the sources assigns. -/
structure features_switch_value_t where
  type : features_switch_type_t
  data : Int
  switch_properties : Nat
deriving DecidableEq, Repr

/-! ## Layout of the raw structs

`features_page_header_t` is laid out as its comment says, a 64 byte value:
magic (8 bytes), `page_number` (4), `page_count` (4), `unused` (16),
`block_info` (32).  The field is declared `char *MAGIC[8]`; in `features_page`
and the offsets below it is taken as the eight characters the comment and the
magic string require, so that `sizeof(raw->header.MAGIC)` is 8.  The
comparison over the field as declared is `features_data_rc_declared`.
`features_block_raw_t` is 64 bytes and `features_page_raw_t` is the header
followed by 63 blocks. -/

def OFFSETOF_HEADER_PAGE_NUMBER : Nat := 8
def OFFSETOF_HEADER_PAGE_COUNT : Nat := 12
def OFFSETOF_HEADER_BLOCK_INFO : Nat := 32
def SIZEOF_PAGE_HEADER : Nat := 64
def SIZEOF_BLOCK_RAW : Nat := FEATURES_BLOCK_SIZE
def OFFSETOF_PAGE_BLOCKS : Nat := SIZEOF_PAGE_HEADER
def SIZEOF_PAGE_RAW : Nat := SIZEOF_PAGE_HEADER + (FEATURES_BLOCKS_PER_PAGE - 1) * SIZEOF_BLOCK_RAW

/-! ## Memory and host byte order -/

/-- Byte-addressed memory. -/
abbrev Memory := Nat → Nat

/-- The byte stored at an address. -/
def byte (mem : Memory) (a : Nat) : Nat := mem a % 256

/-- The number whose base-256 digits are the given bytes, most significant first. -/
def be_value (bytes : List Nat) : Nat := bytes.foldl (fun acc b => acc * 256 + b) 0

/-- The value a host reads from the given bytes, lowest address first. -/
def host_value (be : Bool) (bytes : List Nat) : Nat :=
  if be then be_value bytes else be_value bytes.reverse

/-- The bytes, lowest address first, a host stores for a value of `w` bytes. -/
def host_bytes (be : Bool) (w : Nat) (val : Nat) : List Nat :=
  let le := (List.range w).map (fun i => val / 256 ^ i % 256)
  if be then le.reverse else le

/-- A dereference `*(uintN_t *)a` with `N = 8 * w`: a load in host byte order. -/
def load (be : Bool) (mem : Memory) (w : Nat) (a : Nat) : Nat :=
  host_value be ((List.range w).map (fun i => byte mem (a + i)))

/-- The conversion of a `w`-byte unsigned bit pattern to the signed type of
the same width (two complement). -/
def to_signed (w : Nat) (v : Nat) : Int :=
  if v % 256 ^ w < 256 ^ w / 2 then (v % 256 ^ w : Nat) else ((v % 256 ^ w : Nat) : Int) - (256 ^ w : Nat)

/-- The call `memcmp(s, a, n)` for the `n` bytes of `s`. -/
def memcmp (s : List Nat) (mem : Memory) (a : Nat) : Int :=
  match s with
  | [] => 0
  | x :: xs => if x = byte mem a then memcmp xs mem (a + 1) else (x : Int) - (byte mem a : Int)

/-! ## `memory.c`: the wire codec -/

/-- The function `features_swap_endian_16` (memory.c 341-351). -/
def features_swap_endian_16 (be : Bool) (val : Nat) : Nat :=
  let inb := host_bytes be 2 val
  host_value be [inb.getD 1 0, inb.getD 0 0]

/-- The function `features_swap_endian_32` (memory.c 353-365). -/
def features_swap_endian_32 (be : Bool) (val : Nat) : Nat :=
  let inb := host_bytes be 4 val
  host_value be [inb.getD 3 0, inb.getD 2 0, inb.getD 1 0, inb.getD 0 0]

/-- The function `features_swap_endian_64` (memory.c 367-383). -/
def features_swap_endian_64 (be : Bool) (val : Nat) : Nat :=
  let inb := host_bytes be 8 val
  host_value be [inb.getD 7 0, inb.getD 6 0, inb.getD 5 0, inb.getD 4 0,
                 inb.getD 3 0, inb.getD 2 0, inb.getD 1 0, inb.getD 0 0]

/-- The function `features_read_uint16` (memory.c 385-392). -/
def features_read_uint16 (be : Bool) (mem : Memory) (data : Nat) : Nat :=
  let val := load be mem 2 data
  if be then val else features_swap_endian_16 be val

/-- The function `features_read_uint32` (memory.c 403-410). -/
def features_read_uint32 (be : Bool) (mem : Memory) (data : Nat) : Nat :=
  let val := load be mem 4 data
  if be then val else features_swap_endian_32 be val

/-- The function `features_read_uint64` (memory.c 421-428). -/
def features_read_uint64 (be : Bool) (mem : Memory) (data : Nat) : Nat :=
  let val := load be mem 8 data
  if be then val else features_swap_endian_64 be val

/-- The function `features_read_int16` (memory.c 439-442): the value read is
cast to a pointer and that pointer is dereferenced. -/
def features_read_int16 (be : Bool) (mem : Memory) (data : Nat) : Int :=
  to_signed 2 (load be mem 2 (features_read_uint16 be mem data))

/-- The function `features_read_int32` (memory.c 449-452): the value read is
cast to a pointer and that pointer is dereferenced. -/
def features_read_int32 (be : Bool) (mem : Memory) (data : Nat) : Int :=
  to_signed 4 (load be mem 4 (features_read_uint32 be mem data))

/-- The function `features_read_int64` (memory.c 459-462): the value read is
cast to a pointer and that pointer is dereferenced. -/
def features_read_int64 (be : Bool) (mem : Memory) (data : Nat) : Int :=
  to_signed 8 (load be mem 8 (features_read_uint64 be mem data))

/-- The call `memcpy(a, src, n)` for the `n` bytes `bytes` found at `src`. -/
def memcpy (mem : Memory) (a : Nat) (bytes : List Nat) : Memory := fun x =>
  if a ≤ x ∧ x < a + bytes.length then bytes.getD (x - a) 0 else mem x

/-- The function `features_write_uint16` (memory.c 394-401). -/
def features_write_uint16 (be : Bool) (mem : Memory) (data : Nat) (value : Nat) : Memory :=
  let val := value % 2 ^ 16
  let val := if be then val else features_swap_endian_16 be val
  memcpy mem data (host_bytes be 2 val)

/-- The function `features_write_uint32` (memory.c 412-419). -/
def features_write_uint32 (be : Bool) (mem : Memory) (data : Nat) (value : Nat) : Memory :=
  let val := value % 2 ^ 32
  let val := if be then val else features_swap_endian_32 be val
  memcpy mem data (host_bytes be 4 val)

/-- The function `features_write_uint64` (memory.c 430-437). -/
def features_write_uint64 (be : Bool) (mem : Memory) (data : Nat) (value : Nat) : Memory :=
  let val := value % 2 ^ 64
  let val := if be then val else features_swap_endian_64 be val
  memcpy mem data (host_bytes be 8 val)

/-- The function `features_write_int16` (memory.c 444-447): the bit pattern of
the value is handed to `features_write_uint16`. -/
def features_write_int16 (be : Bool) (mem : Memory) (data : Nat) (value : Int) : Memory :=
  features_write_uint16 be mem data (value % 2 ^ 16).toNat

/-- The function `features_write_int32` (memory.c 454-457): its body is the
return statement of `features_read_int32`; nothing is stored. -/
def features_write_int32 (_be : Bool) (mem : Memory) (_data : Nat) (_value : Int) : Memory :=
  mem

/-- The function `features_write_int64` (memory.c 464-467): its body is the
return statement of `features_read_int64`; nothing is stored. -/
def features_write_int64 (_be : Bool) (mem : Memory) (_data : Nat) (_value : Int) : Memory :=
  mem

/-! ## `memory.c`: pages and blocks -/

/-- The function `features_page` (memory.c 104-119), on the header layout of
the comment: the magic is compared over eight bytes (the comparison over the
field as declared, eight pointers, is `features_data_rc_declared`); the page
number is read from the `page_count` field and `blocks` is the address of
`raw->blocks`, the first block after the header. -/
def features_page (be : Bool) (mem : Memory) (raw : Nat) : Except features_err_t features_page_t :=
  let c := memcmp FEATURES_MAGIC_13_10 mem raw
  if 0 ≠ c then
    .error FEATURES_ERR_INVALID
  else
    .ok { page_number := features_read_uint32 be mem (raw + OFFSETOF_HEADER_PAGE_COUNT),
          blocks := raw + OFFSETOF_PAGE_BLOCKS }

/-- The function `features_data` (memory.c 79-102). -/
def features_data (be : Bool) (mem : Memory) (raw : Nat) : Except features_err_t features_data_t :=
  let page_raw := raw
  match features_page be mem page_raw with
  | .error page_rc => .error page_rc
  | .ok first_page =>
    .ok { page_count := features_read_uint64 be mem (page_raw + OFFSETOF_HEADER_PAGE_COUNT),
          page_offset := first_page.page_number,
          pages := page_raw }

/-- The function `features_block` (memory.c 121-185).  `page->blocks` is used
both as the page header and as the array the block is taken from. -/
def features_block (mem : Memory) (page : features_page_t) (block_number : Nat) :
    Option (Except features_err_t features_block_t) :=
  if ¬ block_number < FEATURES_BLOCKS_PER_PAGE then
    none
  else
    let block : features_block_t := { type := 0, switch_properties := 0, data := 0 }
    if 0 = block_number then
      some (.ok { block with type := FEATURES_SWITCH_TYPE_INVALID })
    else
      let page_header := page.blocks
      let type_byte := byte mem (page_header + OFFSETOF_HEADER_BLOCK_INFO + block_number / 2)
      let type_byte := if block_number % 2 ≠ 0 then type_byte >>> 4 else type_byte
      let block := { block with type := type_byte &&& 0xf }
      let block := { block with switch_properties := page.blocks + SIZEOF_BLOCK_RAW * block_number }
      match block.type with
      | 0x0 | 0x1 | 0xf => some (.ok block)
      | 0x2 =>
        some (.ok { block with data := block.switch_properties + FEATURES_FLAG_PROPERTIES_SIZE })
      | 0x3 | 0x7 =>
        some (.ok { block with data := block.switch_properties + FEATURES_UINT8_PROPERTIES_SIZE })
      | 0x4 | 0x8 =>
        some (.ok { block with data := block.switch_properties + FEATURES_UINT16_PROPERTIES_SIZE })
      | 0x5 | 0x9 =>
        some (.ok { block with data := block.switch_properties + FEATURES_UINT32_PROPERTIES_SIZE })
      | 0x6 | 0xa =>
        some (.ok { block with data := block.switch_properties + FEATURES_UINT64_PROPERTIES_SIZE })
      | _ => some (.error FEATURES_ERR_INVALID)

/-! ## `memory.c`: the switch value resolver -/

/-- The function `features_switch_info` (memory.c 469-556).  In the branches
of the value types only `data` is assigned: `type` keeps the zero written by
the `memset`. -/
def features_switch_info (be : Bool) (mem : Memory) (data : features_data_t) (switch_number : Nat) :
    Option (Except features_err_t features_switch_info_t) :=
  let switch_info : features_switch_info_t := { type := 0, data := 0 }
  match features_switch_id switch_number with
  | none => none
  | some switch_id =>
    if switch_id.page_number < data.page_offset then
      some (.ok { switch_info with type := FEATURES_SWITCH_TYPE_DEPRECATED })
    else if switch_id.page_number > data.page_count then
      some (.ok { switch_info with type := FEATURES_SWITCH_TYPE_UNUSED })
    else
      let page_raw := data.pages + SIZEOF_PAGE_RAW * (switch_id.page_number - data.page_offset)
      match features_page be mem page_raw with
      | .error rc => some (.error rc)
      | .ok page =>
        match features_block mem page switch_id.block_number with
        | none => none
        | some (.error rc) => some (.error rc)
        | some (.ok block) =>
          match block.type with
          | 0x0 | 0x1 | 0xf => some (.ok { switch_info with type := block.type })
          | 0x2 =>
            if switch_id.switch_number > FEATURES_FLAGS_PER_BLOCK then
              some (.ok { switch_info with type := FEATURES_SWITCH_TYPE_INVALID })
            else
              let switch_offset := (switch_id.switch_number / 8) % 2 ^ 8
              some (.ok { switch_info with data := block.data + switch_offset })
          | 0x3 | 0x7 =>
            if switch_id.switch_number > FEATURES_UINT8_PER_BLOCK then
              some (.ok { switch_info with type := FEATURES_SWITCH_TYPE_INVALID })
            else
              some (.ok { switch_info with data := block.data + switch_id.switch_number })
          | 0x4 | 0x8 =>
            if switch_id.switch_number > FEATURES_UINT16_PER_BLOCK then
              some (.ok { switch_info with type := FEATURES_SWITCH_TYPE_INVALID })
            else
              some (.ok { switch_info with data := block.data + 2 * switch_id.switch_number })
          | 0x5 | 0x9 =>
            if switch_id.switch_number > FEATURES_UINT32_PER_BLOCK then
              some (.ok { switch_info with type := FEATURES_SWITCH_TYPE_INVALID })
            else
              some (.ok { switch_info with data := block.data + 4 * switch_id.switch_number })
          | 0x6 | 0xa =>
            if switch_id.switch_number > FEATURES_UINT64_PER_BLOCK then
              some (.ok { switch_info with type := FEATURES_SWITCH_TYPE_INVALID })
            else
              some (.ok { switch_info with data := block.data + 8 * switch_id.switch_number })
          | _ => some (.ok { switch_info with type := FEATURES_SWITCH_TYPE_INVALID })

/-- The status decode that ends `features_switch_value` (memory.c 242-253):
the byte `value->switch_properties[switch_number / 4]`, shifted right by
`switch_number % 4`, with the whole switch number in both places. -/
def features_switch_value_status (mem : Memory) (value : features_switch_value_t)
    (switch_number : Nat) : features_err_t :=
  let switch_properties := byte mem (value.switch_properties + switch_number / 4)
  let switch_properties := (switch_properties >>> (switch_number % 4)) % 2 ^ 8
  if switch_properties &&& 0x1 = 0 then
    FEATURES_ERR_UNUSED
  else if switch_properties &&& 0x2 ≠ 0 then
    FEATURES_ERR_DEPRECATED
  else
    FEATURES_OK

/-- The function `features_switch_value` (memory.c 187-254).  `value` is the
caller struct the function writes through its pointer parameter. -/
def features_switch_value (be : Bool) (mem : Memory) (data : features_data_t)
    (switch_number : Nat) (value : features_switch_value_t) :
    Option (features_err_t × features_switch_value_t) :=
  match features_switch_info be mem data switch_number with
  | none => none
  | some (.error rc) => some (rc, value)
  | some (.ok switch_info) =>
    let value := { value with type := switch_info.type }
    let finish (value : features_switch_value_t) :=
      some (features_switch_value_status mem value switch_number, value)
    match switch_info.type with
    | 0x0 => some (FEATURES_ERR_UNUSED, value)
    | 0x1 => some (FEATURES_ERR_DEPRECATED, value)
    | 0x2 =>
      let flag := byte mem switch_info.data
      finish { value with data := ((flag &&& (1 <<< (switch_number % 8)) : Nat) : Int) }
    | 0x3 => finish { value with data := (byte mem switch_info.data : Int) }
    | 0x4 => finish { value with data := (features_read_uint16 be mem switch_info.data : Int) }
    | 0x5 => finish { value with data := (features_read_uint32 be mem switch_info.data : Int) }
    | 0x6 => finish { value with data := (features_read_uint64 be mem switch_info.data : Int) }
    | 0x7 => finish { value with data := to_signed 1 (byte mem switch_info.data) }
    | 0x8 => finish { value with data := features_read_int16 be mem switch_info.data }
    | 0x9 => finish { value with data := features_read_int32 be mem switch_info.data }
    | 0xa => finish { value with data := features_read_int64 be mem switch_info.data }
    | _ => some (FEATURES_ERR_INVALID, value)

/-! ## `memory.c`: the typed accessors -/

/-- The macro `FEATURE_RETURN_VALUE` (memory.c 256-267), from the line after
its call of `features_switch_value`: `r` is what that call returned and left in
`value`, `val` is the content of `*val` before the accessor runs, and the
result is the return code with the content of `*val` afterwards. -/
def FEATURE_RETURN_VALUE (expected_type : features_switch_type_t)
    (r : features_err_t × features_switch_value_t) (val : Int) : features_err_t × Int :=
  if FEATURES_OK = r.1 then
    if expected_type ≠ r.2.type then
      (FEATURES_ERR_INCORRECT_TYPE, val)
    else
      (FEATURES_OK, r.2.data)
  else
    (r.1, val)

/-- The function `features_switch_flag_value` (memory.c 269-275).  `value` is
the content of the uninitialised local of the macro. -/
def features_switch_flag_value (be : Bool) (mem : Memory) (data : features_data_t)
    (switch_number : Nat) (value : features_switch_value_t) (val : Int) :
    Option (features_err_t × Int) :=
  (features_switch_value be mem data switch_number value).map
    (fun r => FEATURE_RETURN_VALUE FEATURES_SWITCH_TYPE_FLAG r val)

/-- The function `features_switch_uint8_value` (memory.c 277-283). -/
def features_switch_uint8_value (be : Bool) (mem : Memory) (data : features_data_t)
    (switch_number : Nat) (value : features_switch_value_t) (val : Int) :
    Option (features_err_t × Int) :=
  (features_switch_value be mem data switch_number value).map
    (fun r => FEATURE_RETURN_VALUE FEATURES_SWITCH_TYPE_UINT8 r val)

/-- The function `features_switch_uint16_value` (memory.c 285-291). -/
def features_switch_uint16_value (be : Bool) (mem : Memory) (data : features_data_t)
    (switch_number : Nat) (value : features_switch_value_t) (val : Int) :
    Option (features_err_t × Int) :=
  (features_switch_value be mem data switch_number value).map
    (fun r => FEATURE_RETURN_VALUE FEATURES_SWITCH_TYPE_UINT16 r val)

/-- The function `features_switch_uint32_value` (memory.c 293-299). -/
def features_switch_uint32_value (be : Bool) (mem : Memory) (data : features_data_t)
    (switch_number : Nat) (value : features_switch_value_t) (val : Int) :
    Option (features_err_t × Int) :=
  (features_switch_value be mem data switch_number value).map
    (fun r => FEATURE_RETURN_VALUE FEATURES_SWITCH_TYPE_UINT32 r val)

/-- The function `features_switch_uint64_value` (memory.c 301-307). -/
def features_switch_uint64_value (be : Bool) (mem : Memory) (data : features_data_t)
    (switch_number : Nat) (value : features_switch_value_t) (val : Int) :
    Option (features_err_t × Int) :=
  (features_switch_value be mem data switch_number value).map
    (fun r => FEATURE_RETURN_VALUE FEATURES_SWITCH_TYPE_UINT64 r val)

/-- The function `features_switch_int8_value` (memory.c 309-315). -/
def features_switch_int8_value (be : Bool) (mem : Memory) (data : features_data_t)
    (switch_number : Nat) (value : features_switch_value_t) (val : Int) :
    Option (features_err_t × Int) :=
  (features_switch_value be mem data switch_number value).map
    (fun r => FEATURE_RETURN_VALUE FEATURES_SWITCH_TYPE_INT8 r val)

/-- The function `features_switch_int16_value` (memory.c 317-323). -/
def features_switch_int16_value (be : Bool) (mem : Memory) (data : features_data_t)
    (switch_number : Nat) (value : features_switch_value_t) (val : Int) :
    Option (features_err_t × Int) :=
  (features_switch_value be mem data switch_number value).map
    (fun r => FEATURE_RETURN_VALUE FEATURES_SWITCH_TYPE_INT16 r val)

/-- The function `features_switch_int32_value` (memory.c 325-331). -/
def features_switch_int32_value (be : Bool) (mem : Memory) (data : features_data_t)
    (switch_number : Nat) (value : features_switch_value_t) (val : Int) :
    Option (features_err_t × Int) :=
  (features_switch_value be mem data switch_number value).map
    (fun r => FEATURE_RETURN_VALUE FEATURES_SWITCH_TYPE_INT32 r val)

/-- The function `features_switch_int64_value` (memory.c 333-339). -/
def features_switch_int64_value (be : Bool) (mem : Memory) (data : features_data_t)
    (switch_number : Nat) (value : features_switch_value_t) (val : Int) :
    Option (features_err_t × Int) :=
  (features_switch_value be mem data switch_number value).map
    (fun r => FEATURE_RETURN_VALUE FEATURES_SWITCH_TYPE_INT64 r val)

/-- The bytes of a page given as an association list over the magic. -/
def page_of (cells : List (Nat × Nat)) : Memory := fun a =>
  if a < 8 then FEATURES_MAGIC_13_10.getD a 0
  else match cells.lookup a with
    | some b => b
    | none => 0

/-- A page whose block 1 is UInt32, slot 0 allocated and not deprecated,
holding the bytes DE AD BE EF. -/
def page_uint32 : Memory :=
  page_of [(32, 0x50), (64, 0x01), (68, 0xDE), (69, 0xAD), (70, 0xBE), (71, 0xEF),
           (96, 0x50), (128, 0x01), (132, 0xDE), (133, 0xAD), (134, 0xBE), (135, 0xEF)]

/-- A page in which every block type nibble is Unused. -/
def page_unused : Memory := page_of []

/-- A page whose block 1 is UInt8, slot 1 holding 42 with status field 01
(bits 2 and 3 of the first properties byte). -/
def page_uint8_allocated : Memory :=
  page_of [(32, 0x30), (64, 0x04), (78, 42), (96, 0x30), (128, 0x04), (142, 42)]

/-- The page `page_uint8_allocated` with the status field of slot 1 cleared. -/
def page_uint8_clear : Memory :=
  page_of [(32, 0x30), (64, 0x00), (78, 42), (96, 0x30), (128, 0x00), (142, 42)]

/-- A page whose block 1 is UInt32 and whose slot 0 has status field 10:
the deprecated bit set, the allocated bit clear. -/
def page_uint32_status2 : Memory :=
  page_of [(32, 0x50), (64, 0x02), (96, 0x50), (128, 0x02)]

/-- A page whose block 1 is UInt32 and whose slot 0 has status field 11:
allocated and deprecated. -/
def page_uint32_status3 : Memory :=
  page_of [(32, 0x50), (64, 0x03), (96, 0x50), (128, 0x03)]

/-- The store `features_data` builds over a page at address 0 whose
`page_count` bytes are zero. -/
def store0 : features_data_t := { page_count := 0, page_offset := 0, pages := 0 }

/-- A caller value struct, all members zero. -/
def value0 : features_switch_value_t := { type := 0, data := 0, switch_properties := 0 }

/-- The nine typed accessors of memory.c 269-339, each with the type its macro
call names. -/
def typed_accessors : List (features_switch_type_t ×
    (Bool → Memory → features_data_t → Nat → features_switch_value_t → Int →
      Option (features_err_t × Int))) :=
  [(FEATURES_SWITCH_TYPE_FLAG, features_switch_flag_value),
   (FEATURES_SWITCH_TYPE_UINT8, features_switch_uint8_value),
   (FEATURES_SWITCH_TYPE_UINT16, features_switch_uint16_value),
   (FEATURES_SWITCH_TYPE_UINT32, features_switch_uint32_value),
   (FEATURES_SWITCH_TYPE_UINT64, features_switch_uint64_value),
   (FEATURES_SWITCH_TYPE_INT8, features_switch_int8_value),
   (FEATURES_SWITCH_TYPE_INT16, features_switch_int16_value),
   (FEATURES_SWITCH_TYPE_INT32, features_switch_int32_value),
   (FEATURES_SWITCH_TYPE_INT64, features_switch_int64_value)]

/-! ## Concrete memories for the codec and the header -/

/-- A memory holding FF FE at addresses 0 and 1 and zero elsewhere. -/
def mem_signed : Memory := fun a => if a = 0 then 0xFF else if a = 1 then 0xFE else 0

/-- A page whose header table gives block 1 the type UInt32 while byte 96 is 0. -/
def page_table_in_header : Memory := page_of [(32, 0x50)]

/-- A page whose header table is all zero while byte 96 holds 0x50. -/
def page_table_in_block : Memory := page_of [(96, 0x50)]

/-- A page with `page_number` bytes 00 00 00 05, `page_count` bytes
00 00 00 09 and the reserved bytes 00 00 00 01 after them. -/
def page_header_fields : Memory := page_of [(11, 5), (15, 9), (19, 1)]

/-! ## Regions of a block -/

/-- The call `memcmp(s1, s2, n)` on two addresses. -/
def memcmp_mem (mem : Memory) (s1 s2 : Nat) : Nat → Int
  | 0 => 0
  | n + 1 =>
    if byte mem s1 = byte mem s2 then memcmp_mem mem (s1 + 1) (s2 + 1) n
    else (byte mem s1 : Int) - (byte mem s2 : Int)

/-- The array a string literal `FEATURES_MAGIC_13_10` denotes: the eight
characters and the terminating zero. -/
def FEATURES_MAGIC_13_10_array : List Nat := FEATURES_MAGIC_13_10 ++ [0]

/-- The return code of `features_data` (memory.c 90-94, 110-114) with the magic
field as declared: `ptr` is the size of a pointer and `lit` the address of the
string literal. -/
def features_data_rc_declared (ptr : Nat) (lit : Nat) (mem : Memory) (raw : Nat) :
    features_err_t :=
  let c := memcmp_mem mem lit raw (8 * ptr)
  if 0 ≠ c then FEATURES_ERR_INVALID else FEATURES_OK

/-- A memory with the string literal at address 5000 and a page at address 0
that starts with the magic and has byte 8, the first byte of `page_number`,
set to 1. -/
def mem_magic_byte8 : Memory := fun a =>
  if a < 8 then FEATURES_MAGIC_13_10.getD a 0
  else if a = 8 then 1
  else if 5000 ≤ a ∧ a < 5009 then FEATURES_MAGIC_13_10_array.getD (a - 5000) 0
  else 0

/-- The memory `mem_magic_byte8` with byte 8 of the page set to 0. -/
def mem_magic_zero : Memory := fun a =>
  if a < 8 then FEATURES_MAGIC_13_10.getD a 0
  else if 5000 ≤ a ∧ a < 5009 then FEATURES_MAGIC_13_10_array.getD (a - 5000) 0
  else 0

/-- A page whose header table gives block 1 the nibble 0xd and block 2 the
nibble 0xb, every other byte being 0. -/
def page_unknown_nibble : Memory := page_of [(32, 0xd0), (33, 0x0b)]

/-! ## Theorems -/

theorem FEATURES_MAX_BLOCK_eq : FEATURES_MAX_BLOCK = 4294967232 := by
  decide

theorem FEATURES_MAX_SWITCH_eq : FEATURES_MAX_SWITCH = 4294950912 := by
  decide

/-- Below the bound of the assertion `features_switch_id` returns the plain
radix decomposition: no field assignment truncates. -/
theorem features_switch_id_of_le (n : Nat) (h : n ≤ FEATURES_MAX_SWITCH) :
    features_switch_id n
      = some { page_number := n / 16384, block_number := n / 256 % 64, switch_number := n % 256 } := by
  rw [FEATURES_MAX_SWITCH_eq] at h
  have hpage : n / 256 / 64 % 2 ^ 32 = n / 16384 := by
    rw [Nat.div_div_eq_div_mul]
    exact Nat.mod_eq_of_lt (by omega)
  have hblock : n / 256 % 64 % 2 ^ 8 = n / 256 % 64 := Nat.mod_eq_of_lt (by omega)
  have hslot : n % 256 % 2 ^ 8 = n % 256 := Nat.mod_eq_of_lt (by omega)
  simp only [features_switch_id, FEATURES_MAX_SWITCH_eq, if_pos h,
    FEATURES_MAX_SWITCHES_PER_BLOCK, FEATURES_BLOCKS_PER_PAGE, hpage, hblock, hslot]

/-- Every switch number the assertion accepts is recomposed from the triple
`features_switch_id` returns, whose block is below 64 and slot below 256. -/
theorem features_switch_id_recompose (n : Nat) (h : n ≤ FEATURES_MAX_SWITCH) :
    ∃ id, features_switch_id n = some id ∧
      id.page_number * 64 * 256 + id.block_number * 256 + id.switch_number = n ∧
      id.block_number < 64 ∧ id.switch_number < 256 := by
  refine ⟨_, features_switch_id_of_le n h, ?_, ?_, ?_⟩
  · show n / 16384 * 64 * 256 + n / 256 % 64 * 256 + n % 256 = n
    omega
  · show n / 256 % 64 < 64
    omega
  · show n % 256 < 256
    omega

/-- Above the bound of the assertion `features_switch_id` aborts. -/
theorem features_switch_id_of_gt (n : Nat) (h : FEATURES_MAX_SWITCH < n) :
    features_switch_id n = none := by
  have h2 : ¬ n ≤ FEATURES_MAX_SWITCH := by omega
  simp [features_switch_id, h2]

/-- C1: the bound of the assertion, `FEATURES_MAX_SWITCH`, is 4294950912 and
not `UINT32_MAX * 64 * 256`: at the switch number 2^32, which is below 2^40,
`features_switch_id` aborts and returns no triple, while the switch number
4294950912 is still decomposed and recomposed. -/
theorem switch_id_aborts_below_2_40 :
    FEATURES_MAX_SWITCH = 4294950912 ∧
    UINT32_MAX * FEATURES_BLOCKS_PER_PAGE * FEATURES_MAX_SWITCHES_PER_BLOCK = 70368744161280 ∧
    2 ^ 32 < 2 ^ 40 ∧
    features_switch_id (2 ^ 32) = none ∧
    features_switch_id 4294950913 = none ∧
    features_switch_id 4294950912
      = some { page_number := 262143, block_number := 0, switch_number := 0 } ∧
    262143 * 64 * 256 + 0 * 256 + 0 = 4294950912 := by
  refine ⟨by decide, by decide, by decide, by decide, by decide, by decide, by decide⟩

/-- C2 as stated fails: at the 64-bit switch number 2^64 - 1 the assertion of
`features_switch_id` fails, so the call returns no triple at all (and the
quotient 2^50 - 1 would not fit the 32-bit page field). -/
theorem switch_id_max_u64_aborts :
    features_switch_id (2 ^ 64 - 1) = none ∧ ¬ ((2 ^ 64 - 1) / (256 * 64) < 2 ^ 32) := by
  constructor
  · simp [features_switch_id, FEATURES_MAX_SWITCH_eq]
  · norm_num

/-- C2 amended: for every switch number the assertion accepts, that is up to
`FEATURES_MAX_SWITCH`, `features_switch_id` returns slot `n mod 256`, block
`(n / 256) mod 64` and page `n / (256 * 64)`, the page being the whole
quotient, which fits the 32-bit field. -/
theorem switch_id_decomposition (n : Nat) (h : n ≤ FEATURES_MAX_SWITCH) :
    features_switch_id n
      = some { page_number := n / (256 * 64), block_number := n / 256 % 64,
               switch_number := n % 256 } ∧
    n / (256 * 64) < 2 ^ 32 := by
  refine ⟨features_switch_id_of_le n h, ?_⟩
  rw [FEATURES_MAX_SWITCH_eq] at h
  omega

theorem switch_id_decomposition_witness :
    features_switch_id 4294950912
      = some { page_number := 4294950912 / (256 * 64),
               block_number := 4294950912 / 256 % 64,
               switch_number := 4294950912 % 256 } ∧
    4294950912 / (256 * 64) < 2 ^ 32 :=
  switch_id_decomposition 4294950912 (by rw [FEATURES_MAX_SWITCH_eq])

/-! ### The resolver: general facts -/

theorem features_page_error (be : Bool) (mem : Memory) (raw : Nat) (rc : features_err_t)
    (h : features_page be mem raw = .error rc) : rc = FEATURES_ERR_INVALID := by
  simp only [features_page] at h
  split at h <;> simp_all

theorem features_block_error (mem : Memory) (page : features_page_t) (b : Nat) (rc : features_err_t)
    (h : features_block mem page b = some (.error rc)) : rc = FEATURES_ERR_INVALID := by
  simp only [features_block] at h
  split at h
  · simp at h
  · split at h
    · simp at h
    · generalize (if b % 2 ≠ 0 then _ else _) &&& 15 = t at h
      split at h <;> simp_all

theorem features_switch_info_error (be : Bool) (mem : Memory) (data : features_data_t) (n : Nat)
    (rc : features_err_t)
    (h : features_switch_info be mem data n = some (.error rc)) :
    rc = FEATURES_ERR_INVALID := by
  simp only [features_switch_info] at h
  split at h
  · simp at h
  · split at h
    · simp at h
    · split at h
      · simp at h
      · split at h
        · rename_i rc2 hp
          have := features_page_error be mem _ rc2 hp
          simp_all
        · split at h
          · simp at h
          · rename_i rc2 hb
            have := features_block_error mem _ _ rc2 hb
            simp_all
          · repeat' split at h
            all_goals simp_all

theorem features_switch_info_type (be : Bool) (mem : Memory) (data : features_data_t) (n : Nat)
    (si : features_switch_info_t)
    (h : features_switch_info be mem data n = some (.ok si)) :
    si.type = 0 ∨ si.type = 1 ∨ si.type = 15 := by
  unfold features_switch_info at h
  simp only [FEATURES_SWITCH_TYPE_DEPRECATED, FEATURES_SWITCH_TYPE_UNUSED,
    FEATURES_SWITCH_TYPE_INVALID] at h
  repeat' split at h
  all_goals first
    | (simp only [Option.some.injEq, Except.ok.injEq, reduceCtorEq] at h; subst h; simp_all)
    | simp_all

theorem features_switch_value_ne_ok (be : Bool) (mem : Memory) (data : features_data_t) (n : Nat)
    (value : features_switch_value_t) (rc : features_err_t) (out : features_switch_value_t)
    (h : features_switch_value be mem data n value = some (rc, out)) :
    rc ≠ FEATURES_OK := by
  unfold features_switch_value at h
  split at h
  · simp at h
  · rename_i rc2 hinfo
    have := features_switch_info_error be mem data n rc2 hinfo
    simp at h
    rw [← h.1, this]; simp
  · rename_i si hinfo
    have ht := features_switch_info_type be mem data n si hinfo
    rcases ht with ht | ht | ht <;> simp [ht] at h <;> rw [← h.1] <;> simp

/-- C3: on a one-page store whose block 1 is UInt32 with slot 0 allocated, not
deprecated and holding DE AD BE EF, `features_switch_uint32_value` returns
`FEATURES_ERR_UNUSED` and leaves `*val` alone, where the claim has
`FEATURES_OK` and 0xDEADBEEF. -/
theorem uint32_value_returns_unused :
    features_data false page_uint32 0 = .ok store0 ∧
    features_read_uint32 false page_uint32 (64 * 1 + 4 + 4 * 0) = 0xDEADBEEF ∧
    features_switch_info false page_uint32 store0 256
      = some (.ok { type := FEATURES_SWITCH_TYPE_UNUSED, data := 132 }) ∧
    features_switch_uint32_value false page_uint32 store0 256 value0 77
      = some (FEATURES_ERR_UNUSED, 77) := by
  refine ⟨by rfl, by decide, by rfl, by decide⟩

/-- C4: when the decomposed page number is below `page_offset`,
`features_switch_value` returns `FEATURES_ERR_DEPRECATED` whatever the memory
holds. -/
theorem switch_value_page_below_offset (be : Bool) (mem : Memory) (data : features_data_t)
    (n : Nat) (value : features_switch_value_t) (id : features_switch_id_t)
    (hid : features_switch_id n = some id) (hlt : id.page_number < data.page_offset) :
    features_switch_value be mem data n value
      = some (FEATURES_ERR_DEPRECATED, { value with type := FEATURES_SWITCH_TYPE_DEPRECATED }) := by
  simp [features_switch_value, features_switch_info, hid, hlt, FEATURES_SWITCH_TYPE_DEPRECATED]

theorem switch_value_page_below_offset_witness :
    features_switch_value false page_unused
        { page_count := 9, page_offset := 5, pages := 0 } (4 * 16384 + 7) value0
      = some (FEATURES_ERR_DEPRECATED, { value0 with type := FEATURES_SWITCH_TYPE_DEPRECATED }) :=
  switch_value_page_below_offset false page_unused _ (4 * 16384 + 7) value0
    { page_number := 4, block_number := 0, switch_number := 7 } (by decide) (by decide)

/-- C5: when the decomposed page number is not below `page_offset` and is
above `page_count`, `features_switch_value` returns `FEATURES_ERR_UNUSED`
whatever the memory holds. -/
theorem switch_value_page_above_count (be : Bool) (mem : Memory) (data : features_data_t)
    (n : Nat) (value : features_switch_value_t) (id : features_switch_id_t)
    (hid : features_switch_id n = some id) (hge : ¬ id.page_number < data.page_offset)
    (hgt : id.page_number > data.page_count) :
    features_switch_value be mem data n value
      = some (FEATURES_ERR_UNUSED, { value with type := FEATURES_SWITCH_TYPE_UNUSED }) := by
  simp [features_switch_value, features_switch_info, hid, hge, hgt, FEATURES_SWITCH_TYPE_UNUSED]

theorem switch_value_page_above_count_witness :
    features_switch_value false page_unused
        { page_count := 2, page_offset := 0, pages := 0 } (10 * 16384) value0
      = some (FEATURES_ERR_UNUSED, { value0 with type := FEATURES_SWITCH_TYPE_UNUSED }) :=
  switch_value_page_above_count false page_unused _ (10 * 16384) value0
    { page_number := 10, block_number := 0, switch_number := 0 } (by decide) (by decide)
    (by decide)

/-- C6 as stated fails: on the store opened over one valid page whose type
nibbles are all Unused, switch number 0 (page 0, block 0) gets
`FEATURES_ERR_INVALID`, not `FEATURES_ERR_UNUSED`. -/
theorem unused_page_switch_zero_invalid :
    features_data false page_unused 0 = .ok store0 ∧
    (List.range 32).all (fun i => decide (byte page_unused (32 + i) = 0)) = true ∧
    features_switch_value false page_unused store0 0 value0
      = some (FEATURES_ERR_INVALID, { value0 with type := FEATURES_SWITCH_TYPE_INVALID }) := by
  refine ⟨by rfl, by decide, by decide⟩

/-- C6 amended: for a store with `page_offset = 0` and `page_count = 0` over
one valid page, `features_switch_value` returns `FEATURES_ERR_UNUSED` for every
switch number that decomposes to a page other than page 0, and
`FEATURES_ERR_INVALID` for every switch number that decomposes to page 0 and
block number 0. -/
theorem unused_store_switch_value (be : Bool) (mem : Memory) (data : features_data_t)
    (n : Nat) (value : features_switch_value_t) (id : features_switch_id_t)
    (hoff : data.page_offset = 0) (hcnt : data.page_count = 0)
    (hmagic : memcmp FEATURES_MAGIC_13_10 mem data.pages = 0)
    (hid : features_switch_id n = some id) :
    (id.page_number ≠ 0 →
      features_switch_value be mem data n value
        = some (FEATURES_ERR_UNUSED, { value with type := FEATURES_SWITCH_TYPE_UNUSED })) ∧
    (id.page_number = 0 → id.block_number = 0 →
      features_switch_value be mem data n value
        = some (FEATURES_ERR_INVALID, { value with type := FEATURES_SWITCH_TYPE_INVALID })) := by
  constructor
  · intro hp
    have hgt : id.page_number > 0 := by omega
    simp [features_switch_value, features_switch_info, hid, hoff, hcnt, hgt,
      FEATURES_SWITCH_TYPE_UNUSED]
  · intro hp hb
    simp [features_switch_value, features_switch_info, hid, hoff, hcnt, hp, hb, features_page,
      hmagic, features_block, FEATURES_BLOCKS_PER_PAGE, FEATURES_SWITCH_TYPE_INVALID]

theorem unused_store_switch_value_witness :
    features_switch_value false page_unused store0 (16384 + 256 + 3) value0
      = some (FEATURES_ERR_UNUSED, { value0 with type := FEATURES_SWITCH_TYPE_UNUSED }) :=
  (unused_store_switch_value false page_unused store0 (16384 + 256 + 3) value0
    { page_number := 1, block_number := 1, switch_number := 3 } rfl rfl (by decide)
    (by decide)).1 (by decide)

/-- Each typed accessor is its macro applied to what `features_switch_value`
returned. -/
theorem typed_accessors_expand (p : features_switch_type_t ×
      (Bool → Memory → features_data_t → Nat → features_switch_value_t → Int →
        Option (features_err_t × Int)))
    (hp : p ∈ typed_accessors) (be : Bool) (mem : Memory) (data : features_data_t) (n : Nat)
    (value : features_switch_value_t) (val : Int) :
    p.2 be mem data n value val
      = (features_switch_value be mem data n value).map
          (fun r => FEATURE_RETURN_VALUE p.1 r val) := by
  simp only [typed_accessors, List.mem_cons, List.mem_singleton, List.not_mem_nil, or_false] at hp
  rcases hp with rfl | rfl | rfl | rfl | rfl | rfl | rfl | rfl | rfl <;> rfl

/-- C7: for slot 1 of a UInt8 block whose status field (bits 2 and 3 of the
first properties byte) is 01, `features_switch_value` returns
`FEATURES_ERR_UNUSED`, as it does when the field is 00: the field is not
consulted.  The status decode itself, run on the properties of the block,
looks at bits 1 and 2: it answers `FEATURES_ERR_UNUSED` for the field 01 and
`FEATURES_OK` for a slot 1 whose field is 00 next to a slot 0 with field 10. -/
theorem status_field_not_consulted :
    (byte page_uint8_allocated (64 + 1 / 4) >>> (1 % 4 * 2)) &&& 3 = 1 ∧
    (byte page_uint8_allocated (128 + 1 / 4) >>> (1 % 4 * 2)) &&& 3 = 1 ∧
    features_switch_value false page_uint8_allocated store0 257 value0
      = some (FEATURES_ERR_UNUSED, value0) ∧
    features_switch_value false page_uint8_clear store0 257 value0
      = some (FEATURES_ERR_UNUSED, value0) ∧
    features_switch_value_status page_uint8_allocated
      { value0 with switch_properties := 128 } 1 = FEATURES_ERR_UNUSED ∧
    (byte page_uint32_status2 (128 + 1 / 4) >>> (1 % 4 * 2)) &&& 1 = 0 ∧
    features_switch_value_status page_uint32_status2
      { value0 with switch_properties := 128 } 1 = FEATURES_OK := by
  refine ⟨by decide, by decide, by decide, by decide, by decide, by decide, by decide⟩

/-- C8: slot 0 of a UInt32 block whose status field is 11, allocated and
deprecated, gets `FEATURES_ERR_UNUSED` from `features_switch_value`, where the
claim has `FEATURES_ERR_DEPRECATED`; so does the uint32 accessor. -/
theorem deprecated_status_returns_unused :
    features_data false page_uint32_status3 0 = .ok store0 ∧
    (byte page_uint32_status3 (64 + 0 / 4) >>> (0 % 4 * 2)) &&& 3 = 3 ∧
    (byte page_uint32_status3 (128 + 0 / 4) >>> (0 % 4 * 2)) &&& 3 = 3 ∧
    features_block page_uint32_status3 { page_number := 0, blocks := 64 } 1
      = some (.ok { type := FEATURES_SWITCH_TYPE_UINT32, switch_properties := 128,
                    data := 132 }) ∧
    features_switch_value false page_uint32_status3 store0 256 value0
      = some (FEATURES_ERR_UNUSED, value0) ∧
    features_switch_value true page_uint32_status3 store0 256 value0
      = some (FEATURES_ERR_UNUSED, value0) ∧
    features_switch_uint32_value false page_uint32_status3 store0 256 value0 0
      = some (FEATURES_ERR_UNUSED, 0) := by
  refine ⟨by rfl, by decide, by decide, by rfl, by decide, by decide, by decide⟩

/-- The macro `FEATURE_RETURN_VALUE` on a resolver outcome `FEATURES_OK` whose
type tag is not the expected one: `FEATURES_ERR_INCORRECT_TYPE`, and `*val`
as it was. -/
theorem FEATURE_RETURN_VALUE_type_mismatch (expected : features_switch_type_t)
    (out : features_switch_value_t) (val : Int) (h : expected ≠ out.type) :
    FEATURE_RETURN_VALUE expected (FEATURES_OK, out) val = (FEATURES_ERR_INCORRECT_TYPE, val) := by
  simp [FEATURE_RETURN_VALUE, h]

/-- C9: on a switch of a UInt32 block whose status field is 01, allocated and
not deprecated, the uint16 accessor returns `FEATURES_ERR_UNUSED`, where the
claim has `FEATURES_ERR_INCORRECT_TYPE`: the resolver hands the accessor
`FEATURES_ERR_UNUSED` with the type tag 0, so the type test of the macro is
not reached. -/
theorem uint16_accessor_returns_unused :
    features_data true page_uint32 0 = .ok store0 ∧
    (byte page_uint32 (64 + 0 / 4) >>> (0 % 4 * 2)) &&& 3 = 1 ∧
    (byte page_uint32 (128 + 0 / 4) >>> (0 % 4 * 2)) &&& 3 = 1 ∧
    features_block page_uint32 { page_number := 0, blocks := 64 } 1
      = some (.ok { type := FEATURES_SWITCH_TYPE_UINT32, switch_properties := 128,
                    data := 132 }) ∧
    features_switch_value true page_uint32 store0 256 value0
      = some (FEATURES_ERR_UNUSED, { value0 with type := FEATURES_SWITCH_TYPE_UNUSED }) ∧
    features_switch_uint16_value true page_uint32 store0 256 value0 5
      = some (FEATURES_ERR_UNUSED, 5) ∧
    features_switch_uint16_value false page_uint32 store0 256 value0 5
      = some (FEATURES_ERR_UNUSED, 5) := by
  refine ⟨by rfl, by decide, by decide, by rfl, by decide, by decide, by decide⟩

/-- C10: whatever `features_switch_value` returns, each of the nine typed
accessors returns the same code and leaves `*val` alone when the code is not
`FEATURES_OK`, whatever the type tag, and returns `FEATURES_OK` with the value
of the resolver when the code is `FEATURES_OK` and the tag is the type of the
accessor. -/
theorem typed_accessors_propagate (be : Bool) (mem : Memory) (data : features_data_t) (n : Nat)
    (value : features_switch_value_t) (val : Int) (rc : features_err_t)
    (out : features_switch_value_t)
    (h : features_switch_value be mem data n value = some (rc, out)) :
    ∀ p ∈ typed_accessors,
      (rc ≠ FEATURES_OK → p.2 be mem data n value val = some (rc, val)) ∧
      (rc = FEATURES_OK → out.type = p.1 →
        p.2 be mem data n value val = some (FEATURES_OK, out.data)) ∧
      (∀ r : features_switch_value_t,
        (∀ e : features_err_t, e ≠ FEATURES_OK → FEATURE_RETURN_VALUE p.1 (e, r) val = (e, val)) ∧
        (r.type = p.1 → FEATURE_RETURN_VALUE p.1 (FEATURES_OK, r) val = (FEATURES_OK, r.data))) := by
  intro p hp
  rw [typed_accessors_expand p hp, h]
  refine ⟨?_, ?_, ?_⟩
  · intro hrc
    have : ¬ FEATURES_OK = rc := fun e => hrc e.symm
    simp [FEATURE_RETURN_VALUE, this]
  · intro hrc ht
    simp [FEATURE_RETURN_VALUE, hrc, ht]
  · intro r
    refine ⟨?_, ?_⟩
    · intro e he
      have : ¬ FEATURES_OK = e := fun x => he x.symm
      simp [FEATURE_RETURN_VALUE, this]
    · intro ht
      simp [FEATURE_RETURN_VALUE, ht]

theorem typed_accessors_propagate_witness :
    features_switch_uint16_value false page_uint32 store0 256 value0 77
      = some (FEATURES_ERR_UNUSED, 77) :=
  ((typed_accessors_propagate false page_uint32 store0 256 value0 77 FEATURES_ERR_UNUSED value0
    (by decide) (FEATURES_SWITCH_TYPE_UINT16, features_switch_uint16_value)
    (by simp [typed_accessors])).1 (by decide))


/-! ### The wire codec -/

theorem byte_lt (mem : Memory) (a : Nat) : byte mem a < 256 :=
  Nat.mod_lt _ (by decide)

theorem range_two : List.range 2 = [0, 1] := rfl
theorem range_four : List.range 4 = [0, 1, 2, 3] := rfl
theorem range_eight : List.range 8 = [0, 1, 2, 3, 4, 5, 6, 7] := rfl

theorem digits_two (b1 b0 : Nat) (h1 : b1 < 256) (h0 : b0 < 256) :
    (b1 * 256 + b0) % 256 = b0 ∧ (b1 * 256 + b0) / 256 % 256 = b1 := by
  constructor <;> omega

theorem digits_four (b3 b2 b1 b0 : Nat) (h3 : b3 < 256) (h2 : b2 < 256) (h1 : b1 < 256)
    (h0 : b0 < 256) :
    (((b3 * 256 + b2) * 256 + b1) * 256 + b0) % 256 = b0 ∧
    (((b3 * 256 + b2) * 256 + b1) * 256 + b0) / 256 % 256 = b1 ∧
    (((b3 * 256 + b2) * 256 + b1) * 256 + b0) / 65536 % 256 = b2 ∧
    (((b3 * 256 + b2) * 256 + b1) * 256 + b0) / 16777216 % 256 = b3 := by
  refine ⟨?_, ?_, ?_, ?_⟩ <;> omega

theorem digits_eight (b7 b6 b5 b4 b3 b2 b1 b0 : Nat) (h7 : b7 < 256) (h6 : b6 < 256)
    (h5 : b5 < 256) (h4 : b4 < 256) (h3 : b3 < 256) (h2 : b2 < 256) (h1 : b1 < 256)
    (h0 : b0 < 256) :
    (((((((b7 * 256 + b6) * 256 + b5) * 256 + b4) * 256 + b3) * 256 + b2) * 256 + b1) * 256
      + b0) % 256 = b0 ∧
    (((((((b7 * 256 + b6) * 256 + b5) * 256 + b4) * 256 + b3) * 256 + b2) * 256 + b1) * 256
      + b0) / 256 % 256 = b1 ∧
    (((((((b7 * 256 + b6) * 256 + b5) * 256 + b4) * 256 + b3) * 256 + b2) * 256 + b1) * 256
      + b0) / 65536 % 256 = b2 ∧
    (((((((b7 * 256 + b6) * 256 + b5) * 256 + b4) * 256 + b3) * 256 + b2) * 256 + b1) * 256
      + b0) / 16777216 % 256 = b3 ∧
    (((((((b7 * 256 + b6) * 256 + b5) * 256 + b4) * 256 + b3) * 256 + b2) * 256 + b1) * 256
      + b0) / 4294967296 % 256 = b4 ∧
    (((((((b7 * 256 + b6) * 256 + b5) * 256 + b4) * 256 + b3) * 256 + b2) * 256 + b1) * 256
      + b0) / 1099511627776 % 256 = b5 ∧
    (((((((b7 * 256 + b6) * 256 + b5) * 256 + b4) * 256 + b3) * 256 + b2) * 256 + b1) * 256
      + b0) / 281474976710656 % 256 = b6 ∧
    (((((((b7 * 256 + b6) * 256 + b5) * 256 + b4) * 256 + b3) * 256 + b2) * 256 + b1) * 256
      + b0) / 72057594037927936 % 256 = b7 := by
  refine ⟨?_, ?_, ?_, ?_, ?_, ?_, ?_, ?_⟩ <;> omega

theorem features_read_uint16_eq (be : Bool) (mem : Memory) (a : Nat) :
    features_read_uint16 be mem a = byte mem a * 256 + byte mem (a + 1) := by
  have h0 := byte_lt mem a
  have h1 := byte_lt mem (a + 1)
  obtain ⟨e0, e1⟩ := digits_two _ _ h1 h0
  cases be <;>
    simp [features_read_uint16, features_swap_endian_16, load, host_value, host_bytes, be_value,
      range_two, e0, e1]

theorem features_read_uint32_eq (be : Bool) (mem : Memory) (a : Nat) :
    features_read_uint32 be mem a
      = ((byte mem a * 256 + byte mem (a + 1)) * 256 + byte mem (a + 2)) * 256
          + byte mem (a + 3) := by
  obtain ⟨e0, e1, e2, e3⟩ := digits_four _ _ _ _ (byte_lt mem (a + 3)) (byte_lt mem (a + 2))
    (byte_lt mem (a + 1)) (byte_lt mem a)
  cases be <;>
    simp [features_read_uint32, features_swap_endian_32, load, host_value, host_bytes, be_value,
      range_four, e0, e1, e2, e3]

theorem features_read_uint64_eq (be : Bool) (mem : Memory) (a : Nat) :
    features_read_uint64 be mem a
      = ((((((byte mem a * 256 + byte mem (a + 1)) * 256 + byte mem (a + 2)) * 256
          + byte mem (a + 3)) * 256 + byte mem (a + 4)) * 256 + byte mem (a + 5)) * 256
          + byte mem (a + 6)) * 256 + byte mem (a + 7) := by
  obtain ⟨e0, e1, e2, e3, e4, e5, e6, e7⟩ := digits_eight _ _ _ _ _ _ _ _
    (byte_lt mem (a + 7)) (byte_lt mem (a + 6)) (byte_lt mem (a + 5)) (byte_lt mem (a + 4))
    (byte_lt mem (a + 3)) (byte_lt mem (a + 2)) (byte_lt mem (a + 1)) (byte_lt mem a)
  cases be <;>
    simp [features_read_uint64, features_swap_endian_64, load, host_value, host_bytes, be_value,
      range_eight, e0, e1, e2, e3, e4, e5, e6, e7]

theorem byte_memcpy (mem : Memory) (a : Nat) (bytes : List Nat) (x : Nat) :
    byte (memcpy mem a bytes) x
      = if a ≤ x ∧ x < a + bytes.length then bytes.getD (x - a) 0 % 256 else byte mem x := by
  unfold byte memcpy
  split <;> rfl

theorem write_bytes_two (be : Bool) (v : Nat) :
    host_bytes be 2 (if be then v else features_swap_endian_16 be v)
      = [v / 256 % 256, v % 256] := by
  obtain ⟨e0, e1⟩ := digits_two (v % 256) (v / 256 % 256) (Nat.mod_lt _ (by decide))
    (Nat.mod_lt _ (by decide))
  cases be <;>
    simp [features_swap_endian_16, host_value, host_bytes, be_value, range_two, e0, e1]

theorem write_bytes_four (be : Bool) (v : Nat) :
    host_bytes be 4 (if be then v else features_swap_endian_32 be v)
      = [v / 16777216 % 256, v / 65536 % 256, v / 256 % 256, v % 256] := by
  obtain ⟨e0, e1, e2, e3⟩ := digits_four (v % 256) (v / 256 % 256) (v / 65536 % 256)
    (v / 16777216 % 256) (Nat.mod_lt _ (by decide)) (Nat.mod_lt _ (by decide))
    (Nat.mod_lt _ (by decide)) (Nat.mod_lt _ (by decide))
  cases be <;>
    simp [features_swap_endian_32, host_value, host_bytes, be_value, range_four, e0, e1, e2, e3]

theorem write_bytes_eight (be : Bool) (v : Nat) :
    host_bytes be 8 (if be then v else features_swap_endian_64 be v)
      = [v / 72057594037927936 % 256, v / 281474976710656 % 256, v / 1099511627776 % 256,
         v / 4294967296 % 256, v / 16777216 % 256, v / 65536 % 256, v / 256 % 256,
         v % 256] := by
  obtain ⟨e0, e1, e2, e3, e4, e5, e6, e7⟩ := digits_eight (v % 256) (v / 256 % 256)
    (v / 65536 % 256) (v / 16777216 % 256) (v / 4294967296 % 256) (v / 1099511627776 % 256)
    (v / 281474976710656 % 256) (v / 72057594037927936 % 256)
    (Nat.mod_lt _ (by decide)) (Nat.mod_lt _ (by decide)) (Nat.mod_lt _ (by decide))
    (Nat.mod_lt _ (by decide)) (Nat.mod_lt _ (by decide)) (Nat.mod_lt _ (by decide))
    (Nat.mod_lt _ (by decide)) (Nat.mod_lt _ (by decide))
  cases be <;>
    simp [features_swap_endian_64, host_value, host_bytes, be_value, range_eight, e0, e1, e2, e3,
      e4, e5, e6, e7]

theorem features_write_uint16_eq (be : Bool) (mem : Memory) (a v : Nat) (hv : v < 2 ^ 16) :
    features_write_uint16 be mem a v = memcpy mem a [v / 256 % 256, v % 256] := by
  have hm : v % 2 ^ 16 = v := Nat.mod_eq_of_lt hv
  simp only [features_write_uint16, hm, write_bytes_two]

theorem features_write_uint32_eq (be : Bool) (mem : Memory) (a v : Nat) (hv : v < 2 ^ 32) :
    features_write_uint32 be mem a v
      = memcpy mem a [v / 16777216 % 256, v / 65536 % 256, v / 256 % 256, v % 256] := by
  have hm : v % 2 ^ 32 = v := Nat.mod_eq_of_lt hv
  simp only [features_write_uint32, hm, write_bytes_four]

theorem features_write_uint64_eq (be : Bool) (mem : Memory) (a v : Nat) (hv : v < 2 ^ 64) :
    features_write_uint64 be mem a v
      = memcpy mem a [v / 72057594037927936 % 256, v / 281474976710656 % 256,
          v / 1099511627776 % 256, v / 4294967296 % 256, v / 16777216 % 256, v / 65536 % 256,
          v / 256 % 256, v % 256] := by
  have hm : v % 2 ^ 64 = v := Nat.mod_eq_of_lt hv
  simp only [features_write_uint64, hm, write_bytes_eight]

theorem read_after_write_16 (be : Bool) (mem : Memory) (a v : Nat) (hv : v < 2 ^ 16) :
    (byte (features_write_uint16 be mem a v) a = v / 256 % 256 ∧
     byte (features_write_uint16 be mem a v) (a + 1) = v % 256) ∧
    features_read_uint16 be (features_write_uint16 be mem a v) a = v := by
  have hb : byte (features_write_uint16 be mem a v) a = v / 256 % 256 ∧
      byte (features_write_uint16 be mem a v) (a + 1) = v % 256 := by
    rw [features_write_uint16_eq be mem a v hv]
    simp [byte_memcpy]
  refine ⟨hb, ?_⟩
  rw [features_read_uint16_eq, hb.1, hb.2]
  norm_num at hv
  omega

theorem read_after_write_32 (be : Bool) (mem : Memory) (a v : Nat) (hv : v < 2 ^ 32) :
    (byte (features_write_uint32 be mem a v) a = v / 16777216 % 256 ∧
     byte (features_write_uint32 be mem a v) (a + 1) = v / 65536 % 256 ∧
     byte (features_write_uint32 be mem a v) (a + 2) = v / 256 % 256 ∧
     byte (features_write_uint32 be mem a v) (a + 3) = v % 256) ∧
    features_read_uint32 be (features_write_uint32 be mem a v) a = v := by
  have hb : byte (features_write_uint32 be mem a v) a = v / 16777216 % 256 ∧
      byte (features_write_uint32 be mem a v) (a + 1) = v / 65536 % 256 ∧
      byte (features_write_uint32 be mem a v) (a + 2) = v / 256 % 256 ∧
      byte (features_write_uint32 be mem a v) (a + 3) = v % 256 := by
    rw [features_write_uint32_eq be mem a v hv]
    simp [byte_memcpy]
  refine ⟨hb, ?_⟩
  rw [features_read_uint32_eq, hb.1, hb.2.1, hb.2.2.1, hb.2.2.2]
  norm_num at hv
  omega

theorem read_after_write_64 (be : Bool) (mem : Memory) (a v : Nat) (hv : v < 2 ^ 64) :
    (byte (features_write_uint64 be mem a v) a = v / 72057594037927936 % 256 ∧
     byte (features_write_uint64 be mem a v) (a + 1) = v / 281474976710656 % 256 ∧
     byte (features_write_uint64 be mem a v) (a + 2) = v / 1099511627776 % 256 ∧
     byte (features_write_uint64 be mem a v) (a + 3) = v / 4294967296 % 256 ∧
     byte (features_write_uint64 be mem a v) (a + 4) = v / 16777216 % 256 ∧
     byte (features_write_uint64 be mem a v) (a + 5) = v / 65536 % 256 ∧
     byte (features_write_uint64 be mem a v) (a + 6) = v / 256 % 256 ∧
     byte (features_write_uint64 be mem a v) (a + 7) = v % 256) ∧
    features_read_uint64 be (features_write_uint64 be mem a v) a = v := by
  have hb : byte (features_write_uint64 be mem a v) a = v / 72057594037927936 % 256 ∧
      byte (features_write_uint64 be mem a v) (a + 1) = v / 281474976710656 % 256 ∧
      byte (features_write_uint64 be mem a v) (a + 2) = v / 1099511627776 % 256 ∧
      byte (features_write_uint64 be mem a v) (a + 3) = v / 4294967296 % 256 ∧
      byte (features_write_uint64 be mem a v) (a + 4) = v / 16777216 % 256 ∧
      byte (features_write_uint64 be mem a v) (a + 5) = v / 65536 % 256 ∧
      byte (features_write_uint64 be mem a v) (a + 6) = v / 256 % 256 ∧
      byte (features_write_uint64 be mem a v) (a + 7) = v % 256 := by
    rw [features_write_uint64_eq be mem a v hv]
    simp [byte_memcpy]
  refine ⟨hb, ?_⟩
  obtain ⟨h0, h1, h2, h3, h4, h5, h6, h7⟩ := hb
  rw [features_read_uint64_eq, h0, h1, h2, h3, h4, h5, h6, h7]
  norm_num at hv
  omega

theorem memcpy_same (mem : Memory) (a : Nat) (n : Nat) (x : Nat) :
    byte (memcpy mem a ((List.range n).map (fun i => byte mem (a + i)))) x = byte mem x := by
  rw [byte_memcpy]
  split
  · rename_i h
    simp only [List.length_map, List.length_range] at h
    obtain ⟨k, rfl⟩ : ∃ k, x = a + k := ⟨x - a, by omega⟩
    have hk : k < n := by omega
    have hlen : k < ((List.range n).map (fun i => byte mem (a + i))).length := by simpa using hk
    rw [Nat.add_sub_cancel_left, List.getD_eq_getElem _ _ hlen]
    simp [Nat.mod_eq_of_lt (byte_lt mem (a + k))]
  · rfl

theorem write_after_read_16 (be : Bool) (mem : Memory) (a x : Nat) :
    byte (features_write_uint16 be mem a (features_read_uint16 be mem a)) x = byte mem x := by
  have h0 := byte_lt mem a
  have h1 := byte_lt mem (a + 1)
  obtain ⟨e0, e1⟩ := digits_two _ _ h0 h1
  rw [features_write_uint16_eq _ _ _ _ (by rw [features_read_uint16_eq]; norm_num; omega),
    features_read_uint16_eq, e0, e1]
  simpa [range_two] using memcpy_same mem a 2 x

theorem write_after_read_32 (be : Bool) (mem : Memory) (a x : Nat) :
    byte (features_write_uint32 be mem a (features_read_uint32 be mem a)) x = byte mem x := by
  have h0 := byte_lt mem a
  have h1 := byte_lt mem (a + 1)
  have h2 := byte_lt mem (a + 2)
  have h3 := byte_lt mem (a + 3)
  obtain ⟨e0, e1, e2, e3⟩ := digits_four _ _ _ _ h0 h1 h2 h3
  rw [features_write_uint32_eq _ _ _ _ (by rw [features_read_uint32_eq]; norm_num; omega),
    features_read_uint32_eq, e0, e1, e2, e3]
  simpa [range_four] using memcpy_same mem a 4 x

theorem write_after_read_64 (be : Bool) (mem : Memory) (a x : Nat) :
    byte (features_write_uint64 be mem a (features_read_uint64 be mem a)) x = byte mem x := by
  have h0 := byte_lt mem a
  have h1 := byte_lt mem (a + 1)
  have h2 := byte_lt mem (a + 2)
  have h3 := byte_lt mem (a + 3)
  have h4 := byte_lt mem (a + 4)
  have h5 := byte_lt mem (a + 5)
  have h6 := byte_lt mem (a + 6)
  have h7 := byte_lt mem (a + 7)
  obtain ⟨e0, e1, e2, e3, e4, e5, e6, e7⟩ := digits_eight _ _ _ _ _ _ _ _ h0 h1 h2 h3 h4 h5 h6 h7
  rw [features_write_uint64_eq _ _ _ _ (by rw [features_read_uint64_eq]; norm_num; omega),
    features_read_uint64_eq, e0, e1, e2, e3, e4, e5, e6, e7]
  simpa [range_eight] using memcpy_same mem a 8 x

/-! ### Opening a store -/

theorem memcmp_eq_zero_iff (s : List Nat) (mem : Memory) (a : Nat) :
    memcmp s mem a = 0 ↔ ∀ i, i < s.length → byte mem (a + i) = s.getD i 0 := by
  induction s generalizing a with
  | nil => simp [memcmp]
  | cons x xs ih =>
    unfold memcmp
    split
    · rename_i hx
      rw [ih (a + 1)]
      constructor
      · intro h i hi
        cases i with
        | zero => simpa using hx.symm
        | succ j =>
          have := h j (by simpa using hi)
          simpa [Nat.add_assoc, Nat.add_comm 1 j] using this
      · intro h i hi
        have := h (i + 1) (by simpa using hi)
        simpa [Nat.add_assoc, Nat.add_comm 1 i] using this
    · rename_i hx
      constructor
      · intro h
        exfalso
        apply hx
        omega
      · intro h
        exfalso
        apply hx
        have := h 0 (by simp)
        simpa using this.symm

theorem features_page_ok_iff (be : Bool) (mem : Memory) (raw : Nat) :
    (∃ page, features_page be mem raw = .ok page) ↔
      memcmp FEATURES_MAGIC_13_10 mem raw = 0 := by
  simp only [features_page]
  constructor
  · rintro ⟨page, h⟩
    split at h
    · simp at h
    · rename_i hc
      simpa [eq_comm] using hc
  · intro h
    simp [h]

theorem features_data_cases (be : Bool) (mem : Memory) (raw : Nat) :
    (memcmp FEATURES_MAGIC_13_10 mem raw = 0 ∧
      features_data be mem raw = .ok
        { page_count := features_read_uint64 be mem (raw + OFFSETOF_HEADER_PAGE_COUNT),
          page_offset := features_read_uint32 be mem (raw + OFFSETOF_HEADER_PAGE_COUNT),
          pages := raw }) ∨
    (memcmp FEATURES_MAGIC_13_10 mem raw ≠ 0 ∧
      features_data be mem raw = .error FEATURES_ERR_INVALID) := by
  by_cases h : memcmp FEATURES_MAGIC_13_10 mem raw = 0
  · left
    refine ⟨h, ?_⟩
    simp [features_data, features_page, h]
  · right
    refine ⟨h, ?_⟩
    have h2 : ¬ (0 = memcmp FEATURES_MAGIC_13_10 mem raw) := fun e => h e.symm
    simp [features_data, features_page, h2]

/-- Two regions that agree up to a byte where they differ compare unequal. -/
theorem memcmp_mem_ne_zero (mem : Memory) (k : Nat) :
    ∀ (s1 s2 n : Nat), k < n →
      (∀ i, i < k → byte mem (s1 + i) = byte mem (s2 + i)) →
      byte mem (s1 + k) ≠ byte mem (s2 + k) → memcmp_mem mem s1 s2 n ≠ 0 := by
  induction k with
  | zero =>
    intro s1 s2 n hn _ hne
    obtain ⟨m, rfl⟩ : ∃ m, n = m + 1 := ⟨n - 1, by omega⟩
    have hne2 : byte mem s1 ≠ byte mem s2 := by simpa using hne
    simp only [memcmp_mem, if_neg hne2]
    omega
  | succ k ih =>
    intro s1 s2 n hn heq hne
    obtain ⟨m, rfl⟩ : ∃ m, n = m + 1 := ⟨n - 1, by omega⟩
    have h0 : byte mem s1 = byte mem s2 := by simpa using heq 0 (by omega)
    simp only [memcmp_mem, if_pos h0]
    apply ih (s1 + 1) (s2 + 1) m (by omega)
    · intro i hi
      have := heq (i + 1) (by omega)
      simpa [Nat.add_assoc, Nat.add_comm 1 i] using this
    · simpa [Nat.add_assoc, Nat.add_comm 1 k] using hne

/-- With the magic field as declared and pointers of two bytes or more, a page
that starts with the magic is rejected as soon as its byte 8 is not zero. -/
theorem features_data_rc_declared_byte8 (ptr lit : Nat) (mem : Memory) (raw : Nat)
    (hptr : 2 ≤ ptr)
    (hlit : ∀ i, i < 9 → byte mem (lit + i) = FEATURES_MAGIC_13_10_array.getD i 0)
    (hmagic : ∀ i, i < 8 → byte mem (raw + i) = FEATURES_MAGIC_13_10.getD i 0)
    (h8 : byte mem (raw + 8) ≠ 0) :
    features_data_rc_declared ptr lit mem raw = FEATURES_ERR_INVALID := by
  have hne : memcmp_mem mem lit raw (8 * ptr) ≠ 0 := by
    apply memcmp_mem_ne_zero mem 8 lit raw (8 * ptr) (by omega)
    · intro i hi
      rw [hlit i (by omega), hmagic i hi]
      interval_cases i <;> rfl
    · rw [hlit 8 (by omega)]
      intro h
      exact h8 h.symm
  have hne2 : ¬ (0 = memcmp_mem mem lit raw (8 * ptr)) := fun e => hne e.symm
  simp [features_data_rc_declared, hne2]

/-- C11: a page that starts with "FEAT1310" and has byte 8 set to 1 is
refused: with the magic field as memory.h declares it the comparison of
`features_page` covers eight pointers, reaches byte 8 and returns
`FEATURES_ERR_INVALID`, for 8-byte and for 4-byte pointers, while the same
page with byte 8 zero is accepted when zeros follow the literal. -/
theorem magic_compare_reaches_byte_8 :
    (List.range 8).map (fun i => byte mem_magic_byte8 (0 + i)) = FEATURES_MAGIC_13_10 ∧
    (List.range 9).map (fun i => byte mem_magic_byte8 (5000 + i)) = FEATURES_MAGIC_13_10_array ∧
    features_data_rc_declared 8 5000 mem_magic_byte8 0 = FEATURES_ERR_INVALID ∧
    features_data_rc_declared 4 5000 mem_magic_byte8 0 = FEATURES_ERR_INVALID ∧
    (List.range 8).map (fun i => byte mem_magic_zero (0 + i)) = FEATURES_MAGIC_13_10 ∧
    features_data_rc_declared 8 5000 mem_magic_zero 0 = FEATURES_OK := by
  refine ⟨by decide, by decide, by decide, by decide, by decide, by decide⟩


/-! ### The codec: the claims -/

/-- C12: on either host, `features_write_uint16/32/64` stores a value of the
width most significant byte first, `features_read_uint16/32/64` on the bytes
written returns the value, and writing back the value read from any bytes
leaves every byte of the memory as it was. -/
theorem wire_codec_round_trip (be : Bool) (mem : Memory) (a v16 v32 v64 : Nat)
    (h16 : v16 < 2 ^ 16) (h32 : v32 < 2 ^ 32) (h64 : v64 < 2 ^ 64) :
    ((byte (features_write_uint16 be mem a v16) a = v16 / 256 % 256 ∧
      byte (features_write_uint16 be mem a v16) (a + 1) = v16 % 256) ∧
     features_read_uint16 be (features_write_uint16 be mem a v16) a = v16) ∧
    ((byte (features_write_uint32 be mem a v32) a = v32 / 16777216 % 256 ∧
      byte (features_write_uint32 be mem a v32) (a + 1) = v32 / 65536 % 256 ∧
      byte (features_write_uint32 be mem a v32) (a + 2) = v32 / 256 % 256 ∧
      byte (features_write_uint32 be mem a v32) (a + 3) = v32 % 256) ∧
     features_read_uint32 be (features_write_uint32 be mem a v32) a = v32) ∧
    ((byte (features_write_uint64 be mem a v64) a = v64 / 72057594037927936 % 256 ∧
      byte (features_write_uint64 be mem a v64) (a + 1) = v64 / 281474976710656 % 256 ∧
      byte (features_write_uint64 be mem a v64) (a + 2) = v64 / 1099511627776 % 256 ∧
      byte (features_write_uint64 be mem a v64) (a + 3) = v64 / 4294967296 % 256 ∧
      byte (features_write_uint64 be mem a v64) (a + 4) = v64 / 16777216 % 256 ∧
      byte (features_write_uint64 be mem a v64) (a + 5) = v64 / 65536 % 256 ∧
      byte (features_write_uint64 be mem a v64) (a + 6) = v64 / 256 % 256 ∧
      byte (features_write_uint64 be mem a v64) (a + 7) = v64 % 256) ∧
     features_read_uint64 be (features_write_uint64 be mem a v64) a = v64) ∧
    (∀ x, byte (features_write_uint16 be mem a (features_read_uint16 be mem a)) x = byte mem x) ∧
    (∀ x, byte (features_write_uint32 be mem a (features_read_uint32 be mem a)) x = byte mem x) ∧
    (∀ x, byte (features_write_uint64 be mem a (features_read_uint64 be mem a)) x = byte mem x) :=
  ⟨read_after_write_16 be mem a v16 h16, read_after_write_32 be mem a v32 h32,
    read_after_write_64 be mem a v64 h64, write_after_read_16 be mem a,
    write_after_read_32 be mem a, write_after_read_64 be mem a⟩

theorem wire_codec_round_trip_witness :
    (byte (features_write_uint32 false page_unused 100 0x01020304) 100 = 0x01 ∧
     byte (features_write_uint32 false page_unused 100 0x01020304) 101 = 0x02 ∧
     byte (features_write_uint32 false page_unused 100 0x01020304) 102 = 0x03 ∧
     byte (features_write_uint32 false page_unused 100 0x01020304) 103 = 0x04) ∧
    features_read_uint32 false (features_write_uint32 false page_unused 100 0x01020304) 100
      = 0x01020304 :=
  (wire_codec_round_trip false page_unused 100 0x0102 0x01020304 0x0102030405060708
    (by norm_num) (by norm_num) (by norm_num)).2.1

/-- C13: with FF FE stored at address 0, `features_read_uint16` returns 0xFFFE,
whose reinterpretation is -2, while `features_read_int16` returns the 16 bits
found at address 0xFFFE, here 0; `features_write_int32` stores nothing, so the
byte `features_write_uint32` would set to FF stays 0 and reading after writing
-2 does not return -2. -/
theorem signed_codec_diverges :
    features_read_uint16 false mem_signed 0 = 0xFFFE ∧
    to_signed 2 0xFFFE = -2 ∧
    features_read_int16 false mem_signed 0 = 0 ∧
    features_read_int16 true mem_signed 0 = 0 ∧
    byte (features_write_uint32 false mem_signed 8 ((-2 : Int) % 2 ^ 32).toNat) 8 = 0xFF ∧
    byte (features_write_int32 false mem_signed 8 (-2)) 8 = 0 ∧
    features_read_int32 false (features_write_int32 false mem_signed 8 (-2)) 8 = 65279 ∧
    features_read_uint16 false (features_write_int16 false mem_signed 8 (-2)) 8 = 0xFFFE ∧
    features_read_int16 false (features_write_int16 false mem_signed 8 (-2)) 8 = 0 := by
  refine ⟨by decide, by decide, by decide, by decide, by decide, by decide, by decide,
    by decide, by decide⟩

/-! ### Block types, capacities and the header: the claims -/

theorem features_switch_id_bounds (n : Nat) (id : features_switch_id_t)
    (h : features_switch_id n = some id) :
    id.block_number < 64 ∧ id.switch_number < 256 := by
  unfold features_switch_id at h
  split at h
  · simp only [Option.some.injEq] at h
    subst h
    simp only [FEATURES_BLOCKS_PER_PAGE, FEATURES_MAX_SWITCHES_PER_BLOCK]
    constructor <;> omega
  · simp at h

/-- For a switch on a present valid page and a block number from 1 to 63, when
the nibble `features_block` extracts for the block is 0xb, 0xc, 0xd, 0xe or
0xf, `features_switch_value` returns `FEATURES_ERR_INVALID`. -/
theorem unknown_nibble_invalid (be : Bool) (mem : Memory) (data : features_data_t) (n : Nat)
    (value : features_switch_value_t) (id : features_switch_id_t) (page : features_page_t)
    (hid : features_switch_id n = some id)
    (hlo : data.page_offset ≤ id.page_number) (hhi : id.page_number ≤ data.page_count)
    (hpage : features_page be mem
      (data.pages + SIZEOF_PAGE_RAW * (id.page_number - data.page_offset)) = .ok page)
    (hb : 1 ≤ id.block_number)
    (hnib : 0xb ≤ (if id.block_number % 2 ≠ 0
        then byte mem (page.blocks + OFFSETOF_HEADER_BLOCK_INFO + id.block_number / 2) >>> 4
        else byte mem (page.blocks + OFFSETOF_HEADER_BLOCK_INFO + id.block_number / 2))
          &&& 0xf) :
    ∃ out, features_switch_value be mem data n value = some (FEATURES_ERR_INVALID, out) := by
  have hlo2 : ¬ id.page_number < data.page_offset := by omega
  have hhi2 : ¬ id.page_number > data.page_count := by omega
  have hb64 : id.block_number < FEATURES_BLOCKS_PER_PAGE := (features_switch_id_bounds n id hid).1
  have hb0 : ¬ (0 = id.block_number) := by omega
  simp only [features_switch_value, features_switch_info, hid, hlo2, hhi2, if_false, hpage,
    features_block, hb64, not_true_eq_false, hb0]
  have hle : (if id.block_number % 2 ≠ 0
        then byte mem (page.blocks + OFFSETOF_HEADER_BLOCK_INFO + id.block_number / 2) >>> 4
        else byte mem (page.blocks + OFFSETOF_HEADER_BLOCK_INFO + id.block_number / 2))
          &&& 0xf ≤ 0xf := Nat.and_le_right
  generalize (if id.block_number % 2 ≠ 0
        then byte mem (page.blocks + OFFSETOF_HEADER_BLOCK_INFO + id.block_number / 2) >>> 4
        else byte mem (page.blocks + OFFSETOF_HEADER_BLOCK_INFO + id.block_number / 2))
          &&& 0xf = t at hnib hle ⊢
  interval_cases t <;> simp [FEATURES_SWITCH_TYPE_INVALID]

/-- C14: on a valid page whose header table gives block 1 the nibble 0xd and
block 2 the nibble 0xb, `features_switch_value` returns `FEATURES_ERR_UNUSED`
for a switch of block 1 and for a switch of block 2, where the claim has
`FEATURES_ERR_INVALID`: the type is taken from bytes 96 and 97, which are 0. -/
theorem unknown_header_nibble_unused :
    features_data false page_unknown_nibble 0 = .ok store0 ∧
    (byte page_unknown_nibble (32 + 1 / 2) >>> 4) &&& 0xf = 0xd ∧
    byte page_unknown_nibble (32 + 2 / 2) &&& 0xf = 0xb ∧
    features_block page_unknown_nibble { page_number := 0, blocks := 64 } 1
      = some (.ok { type := FEATURES_SWITCH_TYPE_UNUSED, switch_properties := 128, data := 0 }) ∧
    features_switch_value false page_unknown_nibble store0 256 value0
      = some (FEATURES_ERR_UNUSED, value0) ∧
    features_switch_value false page_unknown_nibble store0 512 value0
      = some (FEATURES_ERR_UNUSED, value0) := by
  refine ⟨by rfl, by decide, by decide, by rfl, by decide, by decide⟩

/-- C15: slot 15 of a UInt32 block, the first slot outside the capacity 15,
is accepted: `features_switch_info` returns a data pointer 64 bytes past the
properties of the block and `features_switch_value` returns
`FEATURES_ERR_UNUSED`, as for the valid slot 14; only from slot 16 on is the
result `FEATURES_ERR_INVALID`. -/
theorem slot_at_capacity_accepted :
    FEATURES_UINT32_PER_BLOCK = 15 ∧
    features_switch_info false page_uint32 store0 (256 + 15)
      = some (.ok { type := FEATURES_SWITCH_TYPE_UNUSED, data := 128 + 64 }) ∧
    features_switch_value false page_uint32 store0 (256 + 15) value0
      = some (FEATURES_ERR_UNUSED, value0) ∧
    features_switch_value false page_uint32 store0 (256 + 14) value0
      = some (FEATURES_ERR_UNUSED, value0) ∧
    features_switch_value false page_uint32 store0 (256 + 16) value0
      = some (FEATURES_ERR_INVALID, { value0 with type := FEATURES_SWITCH_TYPE_INVALID }) := by
  refine ⟨by rfl, by rfl, by decide, by decide, by decide⟩

/-- C16: on a valid page whose header table (byte 32) gives block 1 the nibble
5, `features_block` assigns block 1 the type 0, the nibble of byte 96; on a
page whose header table is zero and whose byte 96 is 0x50 it assigns the
type 5. -/
theorem block_type_not_from_header :
    features_page false page_table_in_header 0 = .ok { page_number := 0, blocks := 64 } ∧
    (byte page_table_in_header (32 + 1 / 2) >>> 4) &&& 0xf = 5 ∧
    features_block page_table_in_header { page_number := 0, blocks := 64 } 1
      = some (.ok { type := 0, switch_properties := 128, data := 0 }) ∧
    features_page false page_table_in_block 0 = .ok { page_number := 0, blocks := 64 } ∧
    (byte page_table_in_block (32 + 1 / 2) >>> 4) &&& 0xf = 0 ∧
    features_block page_table_in_block { page_number := 0, blocks := 64 } 1
      = some (.ok { type := 5, switch_properties := 128, data := 132 }) := by
  refine ⟨by rfl, by decide, by rfl, by rfl, by decide, by rfl⟩

/-- C17: on a page with `page_number` 5, `page_count` 9 and a reserved byte set
to 1, `features_data` gives `page_offset` 9 and `page_count` 9 * 2^32 + 1, and
`features_page` reports page number 9. -/
theorem header_fields_misread :
    features_read_uint32 false page_header_fields 8 = 5 ∧
    features_read_uint32 false page_header_fields 12 = 9 ∧
    features_data false page_header_fields 0
      = .ok { page_count := 9 * 2 ^ 32 + 1, page_offset := 9, pages := 0 } ∧
    features_data true page_header_fields 0
      = .ok { page_count := 9 * 2 ^ 32 + 1, page_offset := 9, pages := 0 } ∧
    features_page false page_header_fields 0 = .ok { page_number := 9, blocks := 64 } := by
  refine ⟨by decide, by decide, by rfl, by rfl, by rfl⟩

/-- C18: every store `features_data` constructs has
`page_offset ≤ page_count`. -/
theorem features_data_offset_le_count (be : Bool) (mem : Memory) (raw : Nat)
    (d : features_data_t) (h : features_data be mem raw = .ok d) :
    d.page_offset ≤ d.page_count := by
  rcases features_data_cases be mem raw with ⟨_, hd⟩ | ⟨_, hd⟩
  · rw [hd] at h
    simp only [Except.ok.injEq] at h
    subst h
    simp only [features_read_uint32_eq, features_read_uint64_eq]
    omega
  · rw [hd] at h
    cases h

theorem features_data_offset_le_count_witness :
    (features_data_t.mk (9 * 2 ^ 32 + 1) 9 0).page_offset
      ≤ (features_data_t.mk (9 * 2 ^ 32 + 1) 9 0).page_count :=
  features_data_offset_le_count false page_header_fields 0 _ (by rfl)

/-- C19 as stated fails: for the Flag type the properties region (42 bytes)
and the data region (21 bytes) add up to 63, not 64. -/
theorem flag_block_uses_63_bytes :
    FEATURES_FLAG_PROPERTIES_SIZE + (FEATURES_FLAGS_PER_BLOCK + 7) / 8 = 63 ∧
    FEATURES_FLAG_PROPERTIES_SIZE + (FEATURES_FLAGS_PER_BLOCK + 7) / 8 ≠ 64 := by
  decide

/-- C19 amended: for every block type with a capacity the properties size is
`ceil(capacity * 2 / 8)` and properties plus data fit the 64 bytes of a block:
64 for UInt8/Int8 and UInt32/Int32, 63 for Flag and UInt16/Int16, 58 for
UInt64/Int64. -/
theorem block_regions_fit :
    (FEATURES_FLAG_PROPERTIES_SIZE = (FEATURES_FLAGS_PER_BLOCK * 2 + 7) / 8 ∧
     FEATURES_UINT8_PROPERTIES_SIZE = (FEATURES_UINT8_PER_BLOCK * 2 + 7) / 8 ∧
     FEATURES_UINT16_PROPERTIES_SIZE = (FEATURES_UINT16_PER_BLOCK * 2 + 7) / 8 ∧
     FEATURES_UINT32_PROPERTIES_SIZE = (FEATURES_UINT32_PER_BLOCK * 2 + 7) / 8 ∧
     FEATURES_UINT64_PROPERTIES_SIZE = (FEATURES_UINT64_PER_BLOCK * 2 + 7) / 8) ∧
    (FEATURES_FLAG_PROPERTIES_SIZE + (FEATURES_FLAGS_PER_BLOCK + 7) / 8 = 63 ∧
     FEATURES_UINT8_PROPERTIES_SIZE + FEATURES_UINT8_PER_BLOCK * 1 = 64 ∧
     FEATURES_UINT16_PROPERTIES_SIZE + FEATURES_UINT16_PER_BLOCK * 2 = 63 ∧
     FEATURES_UINT32_PROPERTIES_SIZE + FEATURES_UINT32_PER_BLOCK * 4 = 64 ∧
     FEATURES_UINT64_PROPERTIES_SIZE + FEATURES_UINT64_PER_BLOCK * 8 = 58) ∧
    (FEATURES_INT8_PROPERTIES_SIZE + FEATURES_INT8_PER_BLOCK * 1 = 64 ∧
     FEATURES_INT16_PROPERTIES_SIZE + FEATURES_INT16_PER_BLOCK * 2 = 63 ∧
     FEATURES_INT32_PROPERTIES_SIZE + FEATURES_INT32_PER_BLOCK * 4 = 64 ∧
     FEATURES_INT64_PROPERTIES_SIZE + FEATURES_INT64_PER_BLOCK * 8 = 58) := by
  decide

/-- C20: `features_block` gives block number 0 the type
`FEATURES_SWITCH_TYPE_INVALID` whatever the memory holds, and for every switch
number that decomposes to block 0 of a present valid page
`features_switch_value` returns `FEATURES_ERR_INVALID`. -/
theorem block_zero_invalid (be : Bool) (mem : Memory) (data : features_data_t) (n : Nat)
    (value : features_switch_value_t) (id : features_switch_id_t)
    (hid : features_switch_id n = some id)
    (hlo : data.page_offset ≤ id.page_number) (hhi : id.page_number ≤ data.page_count)
    (hmagic : memcmp FEATURES_MAGIC_13_10 mem
      (data.pages + SIZEOF_PAGE_RAW * (id.page_number - data.page_offset)) = 0)
    (hb : id.block_number = 0) :
    (∀ (m : Memory) (page : features_page_t),
      features_block m page 0
        = some (.ok { type := FEATURES_SWITCH_TYPE_INVALID, switch_properties := 0, data := 0 })) ∧
    features_switch_value be mem data n value
      = some (FEATURES_ERR_INVALID, { value with type := FEATURES_SWITCH_TYPE_INVALID }) := by
  have hlo2 : ¬ id.page_number < data.page_offset := by omega
  have hhi2 : ¬ id.page_number > data.page_count := by omega
  constructor
  · intro m page
    simp [features_block, FEATURES_BLOCKS_PER_PAGE]
  · simp [features_switch_value, features_switch_info, hid, hlo2, hhi2, features_page, hmagic,
      hb, features_block, FEATURES_BLOCKS_PER_PAGE, FEATURES_SWITCH_TYPE_INVALID]

theorem block_zero_invalid_witness :
    features_switch_value false page_uint32 store0 7 value0
      = some (FEATURES_ERR_INVALID, { value0 with type := FEATURES_SWITCH_TYPE_INVALID }) :=
  (block_zero_invalid false page_uint32 store0 7 value0
    { page_number := 0, block_number := 0, switch_number := 7 }
    (by decide) (by decide) (by decide) (by decide) rfl).2


/-! ### The bytes addressed for a slot -/

end Features
